import Mathlib

/-!
Verification of the AgentBeats submission pipeline
(`.github/app/handlers/workflow_run.py` and its data model).

The Python source is shallowly embedded: every `async` collaborator call
(database reads, artifact listing/download, branch/commit/PR creation) is
modelled either as a pure function supplied in an `Env` record or as an
entry appended to an explicit effect trace, and Python exceptions
(`KeyError`, `AttributeError`) are modelled with `Except`.  Python string
primitives used by the source (`str.split("/")`, `str.endswith`,
`str.replace` with one-character arguments, slicing `[:n]`) are given
explicit character-list implementations so that all definitions compute.
-/

/-! ### Python string primitives -/

/-- Python `s.endswith(suffix)`: the character sequence of `suffix` is a
suffix of the character sequence of `s`. -/
def py_endswith (s suffix : String) : Bool :=
  decide (suffix.data <:+ s.data)

/-- Helper for `py_split`: split a character list at every occurrence of
`sep`, keeping empty pieces, as Python `str.split` with an explicit
separator does. -/
def split_chars (sep : Char) : List Char → List (List Char)
  | [] => [[]]
  | c :: rest =>
    let r := split_chars sep rest
    if c = sep then [] :: r
    else
      match r with
      | h :: t => (c :: h) :: t
      | [] => [[c]]

/-- Python `s.split(sep)` for a one-character separator; `"".split(sep)`
yields `[""]` exactly as in Python. -/
def py_split (s : String) (sep : Char) : List String :=
  (split_chars sep s.data).map fun cs => String.mk cs

/-- Python `s.replace(old, new)` for one-character `old` and `new` (the
only form the source uses). -/
def py_replace_char (s : String) (old new : Char) : String :=
  String.mk (s.data.map fun c => if c = old then new else c)

/-- Python slicing `s[:n]` (by code point, as Python strings are
sequences of code points). -/
def py_take (s : String) (n : Nat) : String :=
  String.mk (s.data.take n)

/-- Python `str(x)` for an `Optional[str]`: `None` prints as `"None"`,
used by the f-string `f"conclusion={run.get('conclusion')}"`. -/
def py_str_of_opt : Option String → String
  | none => "None"
  | some s => s

/-! ### JSON values -/

/-- A JSON document as produced by Python `json.loads`.  Numbers are
modelled as integers; no claim depends on float semantics. -/
inductive Json where
  | null
  | bool (b : Bool)
  | num (n : Int)
  | str (s : String)
  | arr (elems : List Json)
  | obj (fields : List (String × Json))

/-- Python `d.get(key)` on a decoded JSON value: a field lookup when the
value is an object, `None` otherwise (the handler only ever calls it on
objects; non-objects raise `AttributeError`, handled at the call site). -/
def Json.get : Json → String → Option Json
  | Json.obj fields, key => fields.lookup key
  | _, _ => none

/-- Python `v == s` between an optional decoded JSON value and a `str`:
true exactly when the value is that string.  (`None` and non-string JSON
values never compare equal to a Python `str`.) -/
def json_eq_str : Option Json → String → Bool
  | some (Json.str t), s => t == s
  | _, _ => false

/-! ### Data model (`models.py` and the webhook payload) -/

/-- A registered leaderboard row (`models.py`, dataclass `Leaderboard`).
`created_at` is modelled as an optional abstract tick. -/
structure Leaderboard where
  id : Nat
  github_repo_id : Nat
  repo_full_name : String
  installation_id : Nat
  created_at : Option Nat
deriving DecidableEq

/-- One entry of `run["referenced_workflows"]`; the handler reads only
its `path` field. -/
structure RefWorkflow where
  path : String
deriving DecidableEq

/-- The fields of `payload["workflow_run"]` consumed by the handler.
`run.get("referenced_workflows", [])` defaults a missing list to `[]`,
so an absent list is modelled as the empty list. -/
structure WorkflowRunData where
  id : Nat
  conclusion : Option String
  referenced_workflows : List RefWorkflow
deriving DecidableEq

/-- The fields of the webhook payload consumed by `handle_workflow_run`:
`payload.get("action")`, `payload["workflow_run"]`,
`payload["repository"]["full_name"]`, `payload["installation"]["id"]`. -/
structure Payload where
  action : Option String
  workflow_run : WorkflowRunData
  repository_full_name : String
  installation_id : Nat
deriving DecidableEq

/-- One entry of the artifact list returned by `get_artifacts`; the
handler reads `artifact["name"]` and `artifact["id"]`. -/
structure Artifact where
  id : Nat
  name : String
deriving DecidableEq

/-- A downloaded artifact archive at the level the source reads it
through `zipfile`: the ordered entry names (`zf.namelist()`) paired with
their decoded contents (`zf.read(name)`). -/
abbrev Archive := List (String × String)

/-- The argument record of one `create_submission` insert
(`db.py`), exactly as `record_submission` passes it. -/
structure SubmissionRecord where
  workflow_run_id : Nat
  leaderboard_repo : String
  purple_repo : String
  purple_owner : String
  status : String
  error_message : Option String
  pr_url : Option String
  pr_number : Option Nat
  results_json : Option Json

/-- One `create_branch(installation_id, repo, branch, base)` call. -/
structure BranchOp where
  installation_id : Nat
  repo : String
  branch : String
  base : String

/-- One `commit_files(installation_id, repo, branch, files, message)`
call; `files` is the path-to-content mapping in insertion order. -/
structure CommitOp where
  installation_id : Nat
  repo : String
  branch : String
  files : List (String × String)
  message : String

/-- One `create_pull_request(installation_id, repo, head, base, title,
body)` call. -/
structure PrOp where
  installation_id : Nat
  repo : String
  head : String
  base : String
  title : String
  body : String

/-- The externally visible side effects of one pipeline invocation:
submission rows inserted, branches created, commits pushed, pull
requests opened, and artifact ids downloaded. -/
structure Effects where
  submissions : List SubmissionRecord
  branches : List BranchOp
  commits : List CommitOp
  prs : List PrOp
  downloads : List Nat

/-- No side effects. -/
def Effects.empty : Effects :=
  ⟨[], [], [], [], []⟩

/-- The four terminal outcomes of the pipeline (`Status` in
`handlers/__init__.py` together with the accompanying payload field). -/
inductive HandlerResult where
  | ok (pr_url : String)
  | ignored (reason : String)
  | error (reason : String)
  | rejected (reason : String)
deriving DecidableEq

/-- The external collaborators of the handler, as pure functions:
database lookup of a leaderboard by full name, the GitHub artifact API,
the URL returned by `create_pull_request`, and the Python library
functions `json.loads`, `json.dumps(·, indent=2)` and `str(·)` applied
to decoded JSON values. -/
structure Env where
  get_leaderboard_by_repo_name : String → Option Leaderboard
  get_artifacts : Nat → String → Nat → List Artifact
  download_artifact : Nat → String → Nat → Archive
  create_pull_request : Nat → String → String → String → String → String → String
  loads : String → Json
  dumps : Json → String
  pyStr : Json → String

/-! ### The handler (`handlers/workflow_run.py`) -/

/-- `find_leaderboard(referenced_workflows)`: iterate in order, split
each `ref["path"]` on `"/"`, skip it when fewer than two parts exist,
otherwise look up `f"{parts[0]}/{parts[1]}"` and return the first hit. -/
def find_leaderboard (lookup : String → Option Leaderboard) :
    List RefWorkflow → Option Leaderboard
  | [] => none
  | ref :: rest =>
    match py_split ref.path '/' with
    | a :: b :: _ =>
      match lookup (a ++ "/" ++ b) with
      | some lb => some lb
      | none => find_leaderboard lookup rest
    | _ => find_leaderboard lookup rest

/-- `download_submission_artifact`: scan the artifact list for the first
entry whose name equals `"agentbeats-submission"` exactly and download
it; returns the list of downloaded artifact ids (the download effect)
and the optional archive. -/
def download_submission_artifact (env : Env) (installation_id : Nat)
    (repo : String) (run_id : Nat) : List Nat × Option Archive :=
  match (env.get_artifacts installation_id repo run_id).find?
      (fun a => a.name == "agentbeats-submission") with
  | some a => ([a.id], some (env.download_artifact installation_id repo a.id))
  | none => ([], none)

/-- One iteration of the `for name in zf.namelist()` loop of
`parse_artifact`: an entry name ending in `results.json` replaces the
results document, else one ending in `manifest.json` replaces the
manifest, else one ending in `scenario.toml` replaces the scenario
text. -/
def parse_step (loads : String → Json) (acc : Json × Json × String)
    (e : String × String) : Json × Json × String :=
  if py_endswith e.1 "results.json" then (loads e.2, acc.2.1, acc.2.2)
  else if py_endswith e.1 "manifest.json" then (acc.1, loads e.2, acc.2.2)
  else if py_endswith e.1 "scenario.toml" then (acc.1, acc.2.1, e.2)
  else acc

/-- `parse_artifact`: fold `parse_step` over the archive entries in
order (last matching entry wins); missing documents default to the
empty object or the empty string. -/
def parse_artifact (loads : String → Json) (entries : Archive) :
    Json × Json × String :=
  entries.foldl (parse_step loads) (Json.obj [], Json.obj [], "")

/-- `format_pr_body`: the fixed PR-body template; accessing a missing
manifest field raises `KeyError`, modelled as `Except.error`. -/
def format_pr_body (env : Env) (manifest results : Json) :
    Except String String :=
  match manifest.get "purple_agent_owner", manifest.get "purple_agent_repo",
      manifest.get "run_id", manifest.get "run_url" with
  | some owner, some repo, some rid, some rurl =>
    Except.ok ("## AgentBeats Submission\n\n| Field | Value |\n|-------|-------|\n| **Competitor** | @"
      ++ env.pyStr owner ++ " |\n| **Repository** | ["
      ++ env.pyStr repo ++ "](https://github.com/" ++ env.pyStr repo
      ++ ") |\n| **Workflow Run** | [#" ++ env.pyStr rid ++ "]("
      ++ env.pyStr rurl ++ ") |\n\n### Results\n```json\n"
      ++ env.dumps results ++ "\n```\n\n---\n*Auto-generated by [AgentBeats](https://agentbeats.dev)*\n")
  | _, _, _, _ => Except.error "KeyError"

/-- `create_submission_pr(leaderboard, manifest, results, scenario,
run_id)`: derive the branch name and submission path, create the branch,
commit the three files, open the PR, and return its `html_url`.  The
effect trace accumulated before an exception is kept (in Python the
branch and commit survive a later `KeyError`). -/
def create_submission_pr (env : Env) (leaderboard : Leaderboard)
    (manifest results : Json) (scenario : String) (run_id : Nat) :
    Effects × Except String String :=
  match manifest.get "purple_agent_owner" with
  | none => (Effects.empty, Except.error "KeyError: purple_agent_owner")
  | some ownerJ =>
    match manifest.get "timestamp" with
    | none => (Effects.empty, Except.error "KeyError: timestamp")
    | some (Json.str ts) =>
      let purple_owner := env.pyStr ownerJ
      let timestamp :=
        py_take (py_replace_char (py_replace_char ts ':' '-') 'T' '-') 15
      let branch_name := "agentbeats/submission-" ++ toString run_id
      let submission_path := "submissions/" ++ purple_owner ++ "/" ++ timestamp
      let branchOp : BranchOp :=
        ⟨leaderboard.installation_id, leaderboard.repo_full_name,
          branch_name, "main"⟩
      let files : List (String × String) :=
        [(submission_path ++ "/results.json", env.dumps results),
         (submission_path ++ "/manifest.json", env.dumps manifest),
         (submission_path ++ "/scenario.toml", scenario)]
      let commitOp : CommitOp :=
        ⟨leaderboard.installation_id, leaderboard.repo_full_name,
          branch_name, files, "[AgentBeats] Submission from " ++ purple_owner⟩
      match format_pr_body env manifest results with
      | Except.error e =>
        ({ Effects.empty with branches := [branchOp], commits := [commitOp] },
          Except.error e)
      | Except.ok body =>
        let title := "[Submission] " ++ purple_owner
        ({ Effects.empty with
            branches := [branchOp]
            commits := [commitOp]
            prs := [⟨leaderboard.installation_id, leaderboard.repo_full_name,
              branch_name, "main", title, body⟩] },
          Except.ok (env.create_pull_request leaderboard.installation_id
            leaderboard.repo_full_name branch_name "main" title body))
    | some _ =>
      (Effects.empty, Except.error "AttributeError: replace on non-str timestamp")

/-- `record_submission(run_id, leaderboard_repo, purple_repo, status,
error, pr_url, results)`: build the `create_submission` argument record;
`purple_owner` is `purple_repo.split("/")[0]`. -/
def record_submission (run_id : Nat) (leaderboard_repo purple_repo status : String)
    (error : Option String) (pr_url : Option String) (results : Option Json) :
    SubmissionRecord :=
  ⟨run_id, leaderboard_repo, purple_repo,
    (py_split purple_repo '/').headD "", status, error, pr_url, none, results⟩

/-- `get_submission_by_run_id` (`db.py`) against an explicit table of
previously inserted rows: the first row whose `workflow_run_id`
matches. -/
def get_submission_by_run_id (db : List SubmissionRecord) (run_id : Nat) :
    Option SubmissionRecord :=
  db.find? fun s => s.workflow_run_id == run_id

/-- Outcome of the guard sequence of `handle_workflow_run` (lines
27-44): either an early `ignored` return, or the data with which the
handler proceeds to the idempotency check. -/
inductive GuardOutcome where
  | early (r : HandlerResult)
  | proceed (leaderboard : Leaderboard) (run_id : Nat) (purple_repo : String)

/-- Lines 27-44 of `handle_workflow_run`: the action guard, the
conclusion guard, the referenced-workflows guard, and leaderboard
resolution, in source order. -/
def guard_phase (env : Env) (payload : Payload) : GuardOutcome :=
  if payload.action ≠ some "completed" then
    GuardOutcome.early (HandlerResult.ignored "not completed")
  else
    let run := payload.workflow_run
    if run.conclusion ≠ some "success" then
      GuardOutcome.early (HandlerResult.ignored
        ("conclusion=" ++ py_str_of_opt run.conclusion))
    else
      let run_id := run.id
      let purple_repo := payload.repository_full_name
      let referenced := run.referenced_workflows
      if referenced.isEmpty then
        GuardOutcome.early (HandlerResult.ignored "no reusable workflows")
      else
        match find_leaderboard env.get_leaderboard_by_repo_name referenced with
        | none => GuardOutcome.early (HandlerResult.ignored "no registered leaderboard")
        | some lb => GuardOutcome.proceed lb run_id purple_repo

/-- Lines 50-80 of `handle_workflow_run`: everything after the
idempotency check — artifact download, extraction, target validation,
publish, and the terminal `record_submission` insert.  A Python
`AttributeError` on `manifest.get` for a non-object manifest is
modelled as `Except.error`. -/
def handle_after_dup_check (env : Env) (payload : Payload)
    (leaderboard : Leaderboard) (run_id : Nat) (purple_repo : String) :
    Effects × Except String HandlerResult :=
  let purple_installation_id := payload.installation_id
  match download_submission_artifact env purple_installation_id purple_repo run_id with
  | (dl, none) =>
    ({ Effects.empty with
        downloads := dl
        submissions := [record_submission run_id leaderboard.repo_full_name
          purple_repo "failed" (some "No artifact found") none none] },
      Except.ok (HandlerResult.error "no artifact"))
  | (dl, some artifact_data) =>
    match parse_artifact env.loads artifact_data with
    | (results, manifest, scenario) =>
      match manifest with
      | Json.obj mfields =>
        if json_eq_str ((Json.obj mfields).get "target_leaderboard")
            leaderboard.repo_full_name = false then
          ({ Effects.empty with
              downloads := dl
              submissions := [record_submission run_id leaderboard.repo_full_name
                purple_repo "rejected" (some "Target mismatch") none none] },
            Except.ok (HandlerResult.rejected "target mismatch"))
        else
          match create_submission_pr env leaderboard (Json.obj mfields)
              results scenario run_id with
          | (pubEffs, Except.error e) =>
            ({ pubEffs with downloads := dl }, Except.error e)
          | (pubEffs, Except.ok pr_url) =>
            ({ pubEffs with
                downloads := dl
                submissions := [record_submission run_id
                  leaderboard.repo_full_name purple_repo "submitted"
                  none (some pr_url) (some results)] },
              Except.ok (HandlerResult.ok pr_url))
      | _ =>
        ({ Effects.empty with downloads := dl },
          Except.error "AttributeError: get on non-dict manifest")

/-- `handle_workflow_run(payload)` against a database snapshot `db` of
previously inserted submission rows: the guard sequence, then the
idempotency check, then the rest of the pipeline.  Returns the effect
trace and the result (`Except.error` models a propagating Python
exception). -/
def handle_workflow_run (env : Env) (db : List SubmissionRecord)
    (payload : Payload) : Effects × Except String HandlerResult :=
  match guard_phase env payload with
  | GuardOutcome.early r => (Effects.empty, Except.ok r)
  | GuardOutcome.proceed lb run_id purple_repo =>
    match get_submission_by_run_id db run_id with
    | some _ => (Effects.empty, Except.ok (HandlerResult.ignored "duplicate"))
    | none => handle_after_dup_check env payload lb run_id purple_repo

/-! ### Interleaving model for concurrent deliveries

The handler is an `async` coroutine: it can suspend at each `await`
(§5 of the spec).  `proc_step` makes the suspension around the
idempotency read (`await get_submission_by_run_id`) and the subsequent
insert explicit; everything between two suspension points runs
atomically.  This is a coarsening of the real code (which also suspends
inside the artifact and GitHub calls): every interleaving expressible
here is an interleaving of the real code. -/

/-- Program counter of one in-flight `handle_workflow_run` invocation:
not yet started, returned from the idempotency read (with its answer),
or finished with its effects and result. -/
inductive ProcState where
  | ready
  | checked (dup : Bool) (leaderboard : Leaderboard) (run_id : Nat)
      (purple_repo : String)
  | finished (eff : Effects) (res : Except String HandlerResult)

/-- The result of a finished invocation, if it has finished. -/
def ProcState.result : ProcState → Option (Except String HandlerResult)
  | ProcState.finished _ r => some r
  | _ => none

/-- One atomic step of one invocation against the shared submissions
table: run the guards and issue the idempotency read; then either stop
as a duplicate or run the remainder of the pipeline and insert its
submission rows. -/
def proc_step (env : Env) (payload : Payload) :
    ProcState → List SubmissionRecord → ProcState × List SubmissionRecord
  | ProcState.ready, db =>
    match guard_phase env payload with
    | GuardOutcome.early r =>
      (ProcState.finished Effects.empty (Except.ok r), db)
    | GuardOutcome.proceed lb rid prepo =>
      (ProcState.checked (get_submission_by_run_id db rid).isSome lb rid prepo, db)
  | ProcState.checked true _ _ _, db =>
    (ProcState.finished Effects.empty
      (Except.ok (HandlerResult.ignored "duplicate")), db)
  | ProcState.checked false lb rid prepo, db =>
    let out := handle_after_dup_check env payload lb rid prepo
    (ProcState.finished out.1 out.2, db ++ out.1.submissions)
  | ProcState.finished e r, db => (ProcState.finished e r, db)

/-- Run two deliveries of the same event under a cooperative schedule:
`true` steps the first invocation, `false` the second. -/
def run_schedule (env : Env) (payload : Payload) :
    List Bool → ProcState × ProcState × List SubmissionRecord →
    ProcState × ProcState × List SubmissionRecord
  | [], s => s
  | b :: rest, (p1, p2, db) =>
    if b then
      let s1 := proc_step env payload p1 db
      run_schedule env payload rest (s1.1, p2, s1.2)
    else
      let s2 := proc_step env payload p2 db
      run_schedule env payload rest (p1, s2.1, s2.2)

/-! ### Resolver helper -/

/-- What one reference contributes to leaderboard resolution: the
lookup of `f"{parts[0]}/{parts[1]}"` when the path has at least two
`/`-separated segments, nothing otherwise. -/
def ref_resolve (lookup : String → Option Leaderboard) (ref : RefWorkflow) :
    Option Leaderboard :=
  match py_split ref.path '/' with
  | a :: b :: _ => lookup (a ++ "/" ++ b)
  | _ => none

/-! ### Concrete instances used by the witnesses -/

/-- A registered leaderboard row. -/
def lbW : Leaderboard := ⟨1, 100, "octo/board", 555, none⟩

/-- A leaderboard table holding exactly `lbW` under its full name. -/
def lookupW : String → Option Leaderboard :=
  fun s => if s = "octo/board" then some lbW else none

/-- The field list of a complete manifest document targeting `lbW`. -/
def mfW : List (String × Json) :=
  [("target_leaderboard", Json.str "octo/board"),
   ("purple_agent_owner", Json.str "alice"),
   ("purple_agent_repo", Json.str "alice/agent"),
   ("run_id", Json.num 7),
   ("run_url", Json.str "https://example.com/run/7"),
   ("timestamp", Json.str "2024-01-02T03:04:05Z")]

/-- A complete manifest document targeting `lbW`. -/
def manifestW : Json := Json.obj mfW

/-- A results document. -/
def resultsW : Json := Json.obj [("score", Json.num 1)]

/-- An artifact archive whose entries sit under a path prefix. -/
def archiveW : Archive :=
  [("run/results.json", "RESULTS"),
   ("run/manifest.json", "MANIFEST"),
   ("run/scenario.toml", "a=1")]

/-- A concrete `json.loads` consistent with `archiveW`. -/
def loadsW : String → Json :=
  fun s => if s = "RESULTS" then resultsW
    else if s = "MANIFEST" then manifestW
    else Json.obj []

/-- A concrete `str(·)` on decoded JSON values (exact only on strings,
which is all the witnesses use it on). -/
def pyStrW : Json → String
  | Json.str s => s
  | _ => "J"

/-- A fully stocked environment: one registered leaderboard, one
artifact named `agentbeats-submission`, the archive `archiveW`, and a
fixed pull-request URL. -/
def envW : Env :=
  ⟨lookupW,
   fun _ _ _ => [⟨42, "agentbeats-submission"⟩],
   fun _ _ _ => archiveW,
   fun _ _ _ _ _ _ => "https://github.com/octo/board/pull/9",
   loadsW,
   fun _ => "DUMPED",
   pyStrW⟩

/-- A completed, successful run (id 7) referencing `lbW`'s workflow. -/
def payloadW : Payload :=
  ⟨some "completed",
   ⟨7, some "success", [⟨"octo/board/.github/workflows/runner.yml"⟩]⟩,
   "alice/agent", 999⟩

/-- Like `envW` but the run has no artifacts at all. -/
def envR : Env :=
  { envW with get_artifacts := fun _ _ _ => [] }

/-- The effect trace of a successful publish in `envW`. -/
def pubEffsW : Effects :=
  (create_submission_pr envW lbW manifestW resultsW "a=1" 7).1

/-! ### Helper lemmas -/

/-- A string ending in `manifest.json` does not end in `results.json`. -/
theorem endswith_manifest_not_results (s : String)
    (h : py_endswith s "manifest.json" = true) :
    py_endswith s "results.json" = false := by
  simp only [py_endswith, decide_eq_true_eq, decide_eq_false_iff_not] at *
  intro hr
  rcases List.suffix_or_suffix_of_suffix h hr with h1 | h1
  · exact absurd h1 (by decide)
  · exact absurd h1 (by decide)

/-- A string ending in `scenario.toml` does not end in `results.json`. -/
theorem endswith_scenario_not_results (s : String)
    (h : py_endswith s "scenario.toml" = true) :
    py_endswith s "results.json" = false := by
  simp only [py_endswith, decide_eq_true_eq, decide_eq_false_iff_not] at *
  intro hr
  rcases List.suffix_or_suffix_of_suffix h hr with h1 | h1
  · exact absurd h1 (by decide)
  · exact absurd h1 (by decide)

/-- A string ending in `scenario.toml` does not end in `manifest.json`. -/
theorem endswith_scenario_not_manifest (s : String)
    (h : py_endswith s "scenario.toml" = true) :
    py_endswith s "manifest.json" = false := by
  simp only [py_endswith, decide_eq_true_eq, decide_eq_false_iff_not] at *
  intro hr
  rcases List.suffix_or_suffix_of_suffix h hr with h1 | h1
  · exact absurd h1 (by decide)
  · exact absurd h1 (by decide)

/-- A list on which `find_leaderboard` succeeds is nonempty. -/
theorem find_leaderboard_isEmpty_false
    (lookup : String → Option Leaderboard) (refs : List RefWorkflow)
    (lb : Leaderboard) (h : find_leaderboard lookup refs = some lb) :
    refs.isEmpty = false := by
  cases refs with
  | nil => simp [find_leaderboard] at h
  | cons r rest => rfl

/-- The guard sequence proceeds to the idempotency check exactly when
the action is `completed`, the conclusion is `success`, and a
leaderboard resolves. -/
theorem guard_phase_proceed (env : Env) (payload : Payload) (lb : Leaderboard)
    (ha : payload.action = some "completed")
    (hc : payload.workflow_run.conclusion = some "success")
    (hf : find_leaderboard env.get_leaderboard_by_repo_name
      payload.workflow_run.referenced_workflows = some lb) :
    guard_phase env payload =
      GuardOutcome.proceed lb payload.workflow_run.id payload.repository_full_name := by
  have hne := find_leaderboard_isEmpty_false _ _ _ hf
  simp [guard_phase, ha, hc, hne, hf]

/-- A step on an entry not suffixed `results.json` keeps the results
component. -/
theorem parse_step_fst (loads : String → Json) (acc : Json × Json × String)
    (e : String × String) (he : py_endswith e.1 "results.json" = false) :
    (parse_step loads acc e).1 = acc.1 := by
  unfold parse_step
  rw [he]
  simp only [Bool.false_eq_true, if_false]
  split
  · rfl
  · split <;> rfl

/-- A step on an entry not suffixed `manifest.json` keeps the manifest
component. -/
theorem parse_step_manifest (loads : String → Json) (acc : Json × Json × String)
    (e : String × String) (he : py_endswith e.1 "manifest.json" = false) :
    (parse_step loads acc e).2.1 = acc.2.1 := by
  unfold parse_step
  rw [he]
  simp only [Bool.false_eq_true, if_false]
  split
  · rfl
  · split <;> rfl

/-- A step on an entry not suffixed `scenario.toml` keeps the scenario
component. -/
theorem parse_step_scenario (loads : String → Json) (acc : Json × Json × String)
    (e : String × String) (he : py_endswith e.1 "scenario.toml" = false) :
    (parse_step loads acc e).2.2 = acc.2.2 := by
  unfold parse_step
  rw [he]
  simp only [Bool.false_eq_true, if_false]
  split
  · rfl
  · split <;> rfl

/-- Entries with no `results.json`-suffixed name leave the results
component of the fold untouched. -/
theorem parse_foldl_fst (loads : String → Json) (entries : Archive)
    (acc : Json × Json × String)
    (h : ∀ e ∈ entries, py_endswith e.1 "results.json" = false) :
    (entries.foldl (parse_step loads) acc).1 = acc.1 := by
  induction entries generalizing acc with
  | nil => rfl
  | cons e rest ih =>
    have he := h e (by simp)
    have hrest : ∀ x ∈ rest, py_endswith x.1 "results.json" = false :=
      fun x hx => h x (by simp [hx])
    rw [List.foldl_cons, ih _ hrest, parse_step_fst loads acc e he]

/-- Entries with no `manifest.json`-suffixed name leave the manifest
component of the fold untouched. -/
theorem parse_foldl_manifest (loads : String → Json) (entries : Archive)
    (acc : Json × Json × String)
    (h : ∀ e ∈ entries, py_endswith e.1 "manifest.json" = false) :
    (entries.foldl (parse_step loads) acc).2.1 = acc.2.1 := by
  induction entries generalizing acc with
  | nil => rfl
  | cons e rest ih =>
    have he := h e (by simp)
    have hrest : ∀ x ∈ rest, py_endswith x.1 "manifest.json" = false :=
      fun x hx => h x (by simp [hx])
    rw [List.foldl_cons, ih _ hrest, parse_step_manifest loads acc e he]

/-- Entries with no `scenario.toml`-suffixed name leave the scenario
component of the fold untouched. -/
theorem parse_foldl_scenario (loads : String → Json) (entries : Archive)
    (acc : Json × Json × String)
    (h : ∀ e ∈ entries, py_endswith e.1 "scenario.toml" = false) :
    (entries.foldl (parse_step loads) acc).2.2 = acc.2.2 := by
  induction entries generalizing acc with
  | nil => rfl
  | cons e rest ih =>
    have he := h e (by simp)
    have hrest : ∀ x ∈ rest, py_endswith x.1 "scenario.toml" = false :=
      fun x hx => h x (by simp [hx])
    rw [List.foldl_cons, ih _ hrest, parse_step_scenario loads acc e he]

/-- Unfolding of `find_leaderboard` on a nonempty list. -/
theorem find_leaderboard_cons_eq (lookup : String → Option Leaderboard)
    (r : RefWorkflow) (rest : List RefWorkflow) :
    find_leaderboard lookup (r :: rest) =
      match py_split r.path '/' with
      | a :: b :: _ =>
        match lookup (a ++ "/" ++ b) with
        | some lb => some lb
        | none => find_leaderboard lookup rest
      | _ => find_leaderboard lookup rest := by
  rw [find_leaderboard]

/-- A reference that resolves makes `find_leaderboard` return its
leaderboard immediately. -/
theorem find_leaderboard_cons_resolve (lookup : String → Option Leaderboard)
    (r : RefWorkflow) (rest : List RefWorkflow) (lb : Leaderboard)
    (hr : ref_resolve lookup r = some lb) :
    find_leaderboard lookup (r :: rest) = some lb := by
  rw [find_leaderboard_cons_eq]
  cases hsplit : py_split r.path '/' with
  | nil => simp [ref_resolve, hsplit] at hr
  | cons a t =>
    cases t with
    | nil => simp [ref_resolve, hsplit] at hr
    | cons b t2 =>
      simp only [ref_resolve, hsplit] at hr
      simp [hr]

/-- A reference that does not resolve is passed over. -/
theorem find_leaderboard_cons_pass (lookup : String → Option Leaderboard)
    (r : RefWorkflow) (rest : List RefWorkflow)
    (hr : ref_resolve lookup r = none) :
    find_leaderboard lookup (r :: rest) = find_leaderboard lookup rest := by
  rw [find_leaderboard_cons_eq]
  cases hsplit : py_split r.path '/' with
  | nil => rfl
  | cons a t =>
    cases t with
    | nil => rfl
    | cons b t2 =>
      simp only [ref_resolve, hsplit] at hr
      simp [hr]

/-- A path with fewer than two `/`-separated segments resolves to
nothing. -/
theorem ref_resolve_short (lookup : String → Option Leaderboard)
    (r : RefWorkflow) (h : (py_split r.path '/').length < 2) :
    ref_resolve lookup r = none := by
  unfold ref_resolve
  cases hsplit : py_split r.path '/' with
  | nil => rfl
  | cons a t =>
    cases t with
    | nil => rfl
    | cons b t2 => exact absurd h (by simp [hsplit])

/-- C5: leaderboard resolution is order-sensitive and first-match: it
iterates in the given order; a reference whose path splits into fewer
than two segments is skipped; each other reference is looked up by its
first two segments joined as `owner/repo`; the first hit is returned
regardless of what follows it; and exhausting the sequence without a
hit returns `none` rather than an error. -/
theorem find_leaderboard_first_match (lookup : String → Option Leaderboard) :
    (∀ pre r post lb, (∀ x ∈ pre, ref_resolve lookup x = none) →
        ref_resolve lookup r = some lb →
        find_leaderboard lookup (pre ++ r :: post) = some lb)
    ∧ (∀ r rest, (py_split r.path '/').length < 2 →
        find_leaderboard lookup (r :: rest) = find_leaderboard lookup rest)
    ∧ (∀ refs, (∀ x ∈ refs, ref_resolve lookup x = none) →
        find_leaderboard lookup refs = none) := by
  refine ⟨?_, ?_, ?_⟩
  · intro pre r post lb hpre hr
    induction pre with
    | nil => exact find_leaderboard_cons_resolve lookup r post lb hr
    | cons x xs ih =>
      have hx := hpre x (by simp)
      have hxs : ∀ y ∈ xs, ref_resolve lookup y = none :=
        fun y hy => hpre y (by simp [hy])
      rw [List.cons_append, find_leaderboard_cons_pass lookup x _ hx]
      exact ih hxs
  · intro r rest h
    exact find_leaderboard_cons_pass lookup r rest (ref_resolve_short lookup r h)
  · intro refs h
    induction refs with
    | nil => rfl
    | cons x xs ih =>
      have hx := h x (by simp)
      have hxs : ∀ y ∈ xs, ref_resolve lookup y = none :=
        fun y hy => h y (by simp [hy])
      rw [find_leaderboard_cons_pass lookup x xs hx]
      exact ih hxs

/-- C5 witness: with only `octo/board` registered, a first entry under
an unregistered repository is passed over and the second entry wins,
the result being independent of what follows it. -/
theorem find_leaderboard_first_match_witness :
    find_leaderboard lookupW
      [⟨"aaa/foo/.github/workflows/runner.yml"⟩,
       ⟨"octo/board/.github/workflows/runner.yml"⟩,
       ⟨"zzz/unseen/.github/workflows/runner.yml"⟩] = some lbW :=
  (find_leaderboard_first_match lookupW).1
    [⟨"aaa/foo/.github/workflows/runner.yml"⟩]
    ⟨"octo/board/.github/workflows/runner.yml"⟩
    [⟨"zzz/unseen/.github/workflows/runner.yml"⟩] lbW
    (by intro x hx; simp at hx; subst hx; decide)
    (by decide)

/-- C10: the resolver requires no `.github/workflows` component: any
reference whose path has at least two `/`-separated segments — the bare
`owner/repo` form included — is looked up by its first two segments,
all remaining segments being ignored. -/
theorem resolver_ignores_extra_segments (lookup : String → Option Leaderboard)
    (ref : RefWorkflow) (owner repo : String) (rest : List String)
    (lb : Leaderboard)
    (hsplit : py_split ref.path '/' = owner :: repo :: rest)
    (hlb : lookup (owner ++ "/" ++ repo) = some lb) :
    find_leaderboard lookup [ref] = some lb := by
  apply find_leaderboard_cons_resolve
  unfold ref_resolve
  rw [hsplit]
  exact hlb

/-- C10 witness: the bare two-segment path `octo/board` resolves to the
registered leaderboard just as a full workflow path would. -/
theorem resolver_ignores_extra_segments_witness :
    find_leaderboard lookupW [⟨"octo/board"⟩] = some lbW :=
  resolver_ignores_extra_segments lookupW ⟨"octo/board"⟩ "octo" "board" []
    lbW (by decide) (by decide)

/-- C6: extractor round-trip.  An archive holding entries suffixed
`results.json`, `manifest.json` and `scenario.toml` — under any path
prefix, since matching is by name suffix — extracts to the parsed
results document, the parsed manifest document, and the verbatim
scenario text; and for each document with no matching entry the
extractor returns the empty object (results, manifest) or the empty
string (scenario) instead of failing.  `parse_artifact` is a plain
function of the entry list, hence pure. -/
theorem parse_artifact_roundtrip (loads : String → Json) :
    (∀ n1 c1 n2 c2 n3 c3,
        py_endswith n1 "results.json" = true →
        py_endswith n2 "manifest.json" = true →
        py_endswith n3 "scenario.toml" = true →
        parse_artifact loads [(n1, c1), (n2, c2), (n3, c3)] =
          (loads c1, loads c2, c3))
    ∧ (∀ entries, (∀ e ∈ entries, py_endswith e.1 "results.json" = false) →
        (parse_artifact loads entries).1 = Json.obj [])
    ∧ (∀ entries, (∀ e ∈ entries, py_endswith e.1 "manifest.json" = false) →
        (parse_artifact loads entries).2.1 = Json.obj [])
    ∧ (∀ entries, (∀ e ∈ entries, py_endswith e.1 "scenario.toml" = false) →
        (parse_artifact loads entries).2.2 = "") := by
  refine ⟨?_, ?_, ?_, ?_⟩
  · intro n1 c1 n2 c2 n3 c3 h1 h2 h3
    have h21 := endswith_manifest_not_results n2 h2
    have h31 := endswith_scenario_not_results n3 h3
    have h32 := endswith_scenario_not_manifest n3 h3
    simp [parse_artifact, parse_step, h1, h2, h3, h21, h31, h32]
  · intro entries h
    exact parse_foldl_fst loads entries _ h
  · intro entries h
    exact parse_foldl_manifest loads entries _ h
  · intro entries h
    exact parse_foldl_scenario loads entries _ h

/-- C6 witness: the three-entry archive `archiveW`, whose entries sit
under the path prefix `run/`, extracts to its parsed documents; and the
empty archive yields the default empty documents. -/
theorem parse_artifact_roundtrip_witness :
    parse_artifact loadsW archiveW = (resultsW, manifestW, "a=1")
    ∧ (parse_artifact loadsW []).1 = Json.obj []
    ∧ (parse_artifact loadsW []).2.1 = Json.obj []
    ∧ (parse_artifact loadsW []).2.2 = "" :=
  ⟨(parse_artifact_roundtrip loadsW).1 "run/results.json" "RESULTS"
      "run/manifest.json" "MANIFEST" "run/scenario.toml" "a=1"
      (by decide) (by decide) (by decide),
   (parse_artifact_roundtrip loadsW).2.1 [] (by intro e he; simp at he),
   (parse_artifact_roundtrip loadsW).2.2.1 [] (by intro e he; simp at he),
   (parse_artifact_roundtrip loadsW).2.2.2 [] (by intro e he; simp at he)⟩

/-- C8: the benign-skip guards run in a fixed order with fixed reason
strings: a non-`completed` action yields `ignored("not completed")`;
then a non-`success` conclusion yields `ignored("conclusion=<value>")`
with the actual conclusion interpolated (`None` when absent); then an
empty referenced-workflows list yields
`ignored("no reusable workflows")`; then a failed leaderboard
resolution yields `ignored("no registered leaderboard")`; in every case
the effect trace is empty, so no Submission record is written. -/
theorem benign_skip_guards (env : Env) (db : List SubmissionRecord)
    (payload : Payload) :
    (payload.action ≠ some "completed" →
      handle_workflow_run env db payload =
        (Effects.empty, Except.ok (HandlerResult.ignored "not completed")))
    ∧ (payload.action = some "completed" →
       payload.workflow_run.conclusion ≠ some "success" →
      handle_workflow_run env db payload =
        (Effects.empty, Except.ok (HandlerResult.ignored
          ("conclusion=" ++ py_str_of_opt payload.workflow_run.conclusion))))
    ∧ (payload.action = some "completed" →
       payload.workflow_run.conclusion = some "success" →
       payload.workflow_run.referenced_workflows = [] →
      handle_workflow_run env db payload =
        (Effects.empty, Except.ok (HandlerResult.ignored "no reusable workflows")))
    ∧ (payload.action = some "completed" →
       payload.workflow_run.conclusion = some "success" →
       payload.workflow_run.referenced_workflows ≠ [] →
       find_leaderboard env.get_leaderboard_by_repo_name
         payload.workflow_run.referenced_workflows = none →
      handle_workflow_run env db payload =
        (Effects.empty, Except.ok (HandlerResult.ignored "no registered leaderboard"))) := by
  refine ⟨?_, ?_, ?_, ?_⟩
  · intro ha
    simp [handle_workflow_run, guard_phase, ha]
  · intro ha hc
    simp [handle_workflow_run, guard_phase, ha, hc]
  · intro ha hc hrefs
    simp [handle_workflow_run, guard_phase, ha, hc, hrefs]
  · intro ha hc hrefs hf
    have hne : payload.workflow_run.referenced_workflows.isEmpty = false := by
      cases hx : payload.workflow_run.referenced_workflows with
      | nil => exact absurd hx hrefs
      | cons y ys => rfl
    simp [handle_workflow_run, guard_phase, ha, hc, hne, hf]

/-- A payload with a non-`completed` action. -/
def payloadA : Payload :=
  { payloadW with action := some "requested" }

/-- A completed payload whose run concluded `failure`. -/
def payloadB : Payload :=
  { payloadW with workflow_run :=
    { payloadW.workflow_run with conclusion := some "failure" } }

/-- A completed, successful payload with no referenced workflows. -/
def payloadC : Payload :=
  { payloadW with workflow_run :=
    { payloadW.workflow_run with referenced_workflows := [] } }

/-- A completed, successful payload whose only reference is to an
unregistered repository. -/
def payloadD : Payload :=
  { payloadW with workflow_run :=
    { payloadW.workflow_run with referenced_workflows :=
      [⟨"nobody/unregistered/.github/workflows/runner.yml"⟩] } }

/-- C8 witness: each of the four guard outcomes at a concrete payload,
with the empty effect trace. -/
theorem benign_skip_guards_witness :
    handle_workflow_run envW [] payloadA =
      (Effects.empty, Except.ok (HandlerResult.ignored "not completed"))
    ∧ handle_workflow_run envW [] payloadB =
      (Effects.empty, Except.ok (HandlerResult.ignored "conclusion=failure"))
    ∧ handle_workflow_run envW [] payloadC =
      (Effects.empty, Except.ok (HandlerResult.ignored "no reusable workflows"))
    ∧ handle_workflow_run envW [] payloadD =
      (Effects.empty, Except.ok (HandlerResult.ignored "no registered leaderboard")) :=
  ⟨(benign_skip_guards envW [] payloadA).1 (by decide),
   (benign_skip_guards envW [] payloadB).2.1 (by decide) (by decide),
   (benign_skip_guards envW [] payloadC).2.2.1 (by decide) (by decide) (by decide),
   (benign_skip_guards envW [] payloadD).2.2.2 (by decide) (by decide)
     (by decide) (by decide)⟩

/-- C1: for a completed, successful run with a resolvable leaderboard,
no prior Submission for the run id, an artifact entry named exactly
`agentbeats-submission` whose archive extracts to a manifest whose
declared target equals the resolved leaderboard's full name, and a
publish operation that returns a URL: the pipeline inserts exactly one
Submission record, with status `submitted`, `pr_url` equal to the
published URL and `results_json` equal to the extracted results
document, and returns `ok` with that same URL. -/
theorem submitted_run_records_once (env : Env) (db : List SubmissionRecord)
    (payload : Payload) (lb : Leaderboard) (art : Artifact)
    (results : Json) (mf : List (String × Json)) (scenario : String)
    (pubEffs : Effects) (prUrl : String)
    (ha : payload.action = some "completed")
    (hc : payload.workflow_run.conclusion = some "success")
    (hf : find_leaderboard env.get_leaderboard_by_repo_name
      payload.workflow_run.referenced_workflows = some lb)
    (hdup : get_submission_by_run_id db payload.workflow_run.id = none)
    (hart : (env.get_artifacts payload.installation_id
        payload.repository_full_name payload.workflow_run.id).find?
      (fun a => a.name == "agentbeats-submission") = some art)
    (hparse : parse_artifact env.loads
        (env.download_artifact payload.installation_id
          payload.repository_full_name art.id) =
      (results, Json.obj mf, scenario))
    (htarget : json_eq_str ((Json.obj mf).get "target_leaderboard")
      lb.repo_full_name = true)
    (hpub : create_submission_pr env lb (Json.obj mf) results scenario
      payload.workflow_run.id = (pubEffs, Except.ok prUrl)) :
    ∃ rec, (handle_workflow_run env db payload).1.submissions = [rec]
      ∧ rec.status = "submitted"
      ∧ rec.pr_url = some prUrl
      ∧ rec.results_json = some results
      ∧ (handle_workflow_run env db payload).2 =
          Except.ok (HandlerResult.ok prUrl) := by
  have hg := guard_phase_proceed env payload lb ha hc hf
  have hmain : handle_workflow_run env db payload =
      ({ pubEffs with
          downloads := [art.id]
          submissions := [record_submission payload.workflow_run.id
            lb.repo_full_name payload.repository_full_name "submitted"
            none (some prUrl) (some results)] },
        Except.ok (HandlerResult.ok prUrl)) := by
    simp only [handle_workflow_run, hg, hdup, handle_after_dup_check,
      download_submission_artifact, hart, hparse, htarget, hpub,
      Bool.true_eq_false, if_false]
  rw [hmain]
  exact ⟨_, rfl, rfl, rfl, rfl, rfl⟩

/-- C1 witness: the fully stocked environment `envW` processes run 7
into exactly one `submitted` record carrying the published URL and the
extracted results, and returns `ok` with that URL. -/
theorem submitted_run_records_once_witness :
    ∃ rec, (handle_workflow_run envW [] payloadW).1.submissions = [rec]
      ∧ rec.status = "submitted"
      ∧ rec.pr_url = some "https://github.com/octo/board/pull/9"
      ∧ rec.results_json = some resultsW
      ∧ (handle_workflow_run envW [] payloadW).2 =
          Except.ok (HandlerResult.ok "https://github.com/octo/board/pull/9") :=
  submitted_run_records_once envW [] payloadW lbW ⟨42, "agentbeats-submission"⟩
    resultsW mfW "a=1" pubEffsW "https://github.com/octo/board/pull/9"
    rfl rfl (by decide) rfl rfl rfl rfl rfl

/-- Shared core of the rejection path: a false target comparison makes
the handler insert exactly one `rejected` Submission and return
`rejected("target mismatch")`. -/
theorem rejected_of_target_ne (env : Env) (db : List SubmissionRecord)
    (payload : Payload) (lb : Leaderboard) (art : Artifact)
    (results : Json) (mf : List (String × Json)) (scenario : String)
    (ha : payload.action = some "completed")
    (hc : payload.workflow_run.conclusion = some "success")
    (hf : find_leaderboard env.get_leaderboard_by_repo_name
      payload.workflow_run.referenced_workflows = some lb)
    (hdup : get_submission_by_run_id db payload.workflow_run.id = none)
    (hart : (env.get_artifacts payload.installation_id
        payload.repository_full_name payload.workflow_run.id).find?
      (fun a => a.name == "agentbeats-submission") = some art)
    (hparse : parse_artifact env.loads
        (env.download_artifact payload.installation_id
          payload.repository_full_name art.id) =
      (results, Json.obj mf, scenario))
    (htarget : json_eq_str ((Json.obj mf).get "target_leaderboard")
      lb.repo_full_name = false) :
    ∃ rec, (handle_workflow_run env db payload).1 = ⟨[rec], [], [], [], [art.id]⟩
      ∧ rec.status = "rejected"
      ∧ rec.error_message = some "Target mismatch"
      ∧ rec.pr_number = none
      ∧ rec.pr_url = none
      ∧ rec.results_json = none
      ∧ (handle_workflow_run env db payload).2 =
          Except.ok (HandlerResult.rejected "target mismatch") := by
  have hg := guard_phase_proceed env payload lb ha hc hf
  have hmain : handle_workflow_run env db payload =
      ({ Effects.empty with
          downloads := [art.id]
          submissions := [record_submission payload.workflow_run.id
            lb.repo_full_name payload.repository_full_name "rejected"
            (some "Target mismatch") none none] },
        Except.ok (HandlerResult.rejected "target mismatch")) := by
    simp only [handle_workflow_run, hg, hdup, handle_after_dup_check,
      download_submission_artifact, hart, hparse, htarget, if_true]
  rw [hmain]
  exact ⟨_, rfl, rfl, rfl, rfl, rfl, rfl, rfl⟩

/-- C3: when the extracted manifest's declared target differs from the
resolved leaderboard's current full name, the pipeline inserts exactly
one Submission with status `rejected` and error `Target mismatch`, with
no PR number, PR URL or results payload, creates no branch, commit or
pull request, and returns `rejected("target mismatch")`. -/
theorem target_mismatch_rejected (env : Env) (db : List SubmissionRecord)
    (payload : Payload) (lb : Leaderboard) (art : Artifact)
    (results : Json) (mf : List (String × Json)) (scenario : String)
    (ha : payload.action = some "completed")
    (hc : payload.workflow_run.conclusion = some "success")
    (hf : find_leaderboard env.get_leaderboard_by_repo_name
      payload.workflow_run.referenced_workflows = some lb)
    (hdup : get_submission_by_run_id db payload.workflow_run.id = none)
    (hart : (env.get_artifacts payload.installation_id
        payload.repository_full_name payload.workflow_run.id).find?
      (fun a => a.name == "agentbeats-submission") = some art)
    (hparse : parse_artifact env.loads
        (env.download_artifact payload.installation_id
          payload.repository_full_name art.id) =
      (results, Json.obj mf, scenario))
    (htarget : json_eq_str ((Json.obj mf).get "target_leaderboard")
      lb.repo_full_name = false) :
    ∃ rec, (handle_workflow_run env db payload).1 = ⟨[rec], [], [], [], [art.id]⟩
      ∧ rec.status = "rejected"
      ∧ rec.error_message = some "Target mismatch"
      ∧ rec.pr_number = none
      ∧ rec.pr_url = none
      ∧ rec.results_json = none
      ∧ (handle_workflow_run env db payload).2 =
          Except.ok (HandlerResult.rejected "target mismatch") :=
  rejected_of_target_ne env db payload lb art results mf scenario
    ha hc hf hdup hart hparse htarget

/-- A manifest whose declared target is a different repository. -/
def mfM : List (String × Json) :=
  [("target_leaderboard", Json.str "other/repo")]

/-- Like `envW`, but the archived manifest declares `other/repo` as its
target while the resolved leaderboard is `octo/board`. -/
def envM : Env :=
  { envW with loads := fun s =>
      if s = "RESULTS" then resultsW
      else if s = "MANIFEST" then Json.obj mfM
      else Json.obj [] }

/-- C3 witness: run 7 with a manifest targeting `other/repo` against the
leaderboard `octo/board` is rejected with a `Target mismatch` record and
no publish effects. -/
theorem target_mismatch_rejected_witness :
    ∃ rec, (handle_workflow_run envM [] payloadW).1 = ⟨[rec], [], [], [], [42]⟩
      ∧ rec.status = "rejected"
      ∧ rec.error_message = some "Target mismatch"
      ∧ rec.pr_number = none
      ∧ rec.pr_url = none
      ∧ rec.results_json = none
      ∧ (handle_workflow_run envM [] payloadW).2 =
          Except.ok (HandlerResult.rejected "target mismatch") :=
  target_mismatch_rejected envM [] payloadW lbW ⟨42, "agentbeats-submission"⟩
    resultsW mfM "a=1" rfl rfl (by decide) rfl rfl rfl rfl

/-- C9: when the extracted manifest has no `target_leaderboard` field at
all — as when the archive held no `manifest.json` and the manifest
defaulted to the empty object — the pipeline raises no missing-field
error: the absent field compares unequal to the leaderboard's name, so
it records a `rejected` Submission with error `Target mismatch` and
returns `rejected("target mismatch")`. -/
theorem missing_target_field_rejected (env : Env) (db : List SubmissionRecord)
    (payload : Payload) (lb : Leaderboard) (art : Artifact)
    (results : Json) (mf : List (String × Json)) (scenario : String)
    (ha : payload.action = some "completed")
    (hc : payload.workflow_run.conclusion = some "success")
    (hf : find_leaderboard env.get_leaderboard_by_repo_name
      payload.workflow_run.referenced_workflows = some lb)
    (hdup : get_submission_by_run_id db payload.workflow_run.id = none)
    (hart : (env.get_artifacts payload.installation_id
        payload.repository_full_name payload.workflow_run.id).find?
      (fun a => a.name == "agentbeats-submission") = some art)
    (hparse : parse_artifact env.loads
        (env.download_artifact payload.installation_id
          payload.repository_full_name art.id) =
      (results, Json.obj mf, scenario))
    (hmiss : mf.lookup "target_leaderboard" = none) :
    ∃ rec, (handle_workflow_run env db payload).1 = ⟨[rec], [], [], [], [art.id]⟩
      ∧ rec.status = "rejected"
      ∧ rec.error_message = some "Target mismatch"
      ∧ rec.pr_url = none
      ∧ rec.results_json = none
      ∧ (handle_workflow_run env db payload).2 =
          Except.ok (HandlerResult.rejected "target mismatch") := by
  have htarget : json_eq_str ((Json.obj mf).get "target_leaderboard")
      lb.repo_full_name = false := by
    simp [Json.get, hmiss, json_eq_str]
  obtain ⟨rec, h1, h2, h3, _, h5, h6, h7⟩ :=
    rejected_of_target_ne env db payload lb art results mf scenario
      ha hc hf hdup hart hparse htarget
  exact ⟨rec, h1, h2, h3, h5, h6, h7⟩

/-- Like `envW`, but the downloaded archive holds no `manifest.json`
entry at all. -/
def env9 : Env :=
  { envW with download_artifact := fun _ _ _ =>
      [("run/results.json", "RESULTS"), ("run/scenario.toml", "a=1")] }

/-- C9 witness: an archive with no manifest entry defaults the manifest
to the empty object, and the pipeline returns `rejected` (no raised
error), recording `Target mismatch`. -/
theorem missing_target_field_rejected_witness :
    ∃ rec, (handle_workflow_run env9 [] payloadW).1 = ⟨[rec], [], [], [], [42]⟩
      ∧ rec.status = "rejected"
      ∧ rec.error_message = some "Target mismatch"
      ∧ rec.pr_url = none
      ∧ rec.results_json = none
      ∧ (handle_workflow_run env9 [] payloadW).2 =
          Except.ok (HandlerResult.rejected "target mismatch") :=
  missing_target_field_rejected env9 [] payloadW lbW
    ⟨42, "agentbeats-submission"⟩ resultsW [] "a=1"
    rfl rfl (by decide) rfl rfl rfl rfl

/-- C4: when the artifact list has no entry named exactly
`agentbeats-submission` — matching is by full-string equality, so
prefix or suffix near-misses do not count — the pipeline records a
Submission with status `failed` and error `No artifact found`, performs
no download, and returns `error("no artifact")`. -/
theorem no_artifact_failed (env : Env) (db : List SubmissionRecord)
    (payload : Payload) (lb : Leaderboard)
    (ha : payload.action = some "completed")
    (hc : payload.workflow_run.conclusion = some "success")
    (hf : find_leaderboard env.get_leaderboard_by_repo_name
      payload.workflow_run.referenced_workflows = some lb)
    (hdup : get_submission_by_run_id db payload.workflow_run.id = none)
    (hnone : ∀ a ∈ env.get_artifacts payload.installation_id
      payload.repository_full_name payload.workflow_run.id,
      a.name ≠ "agentbeats-submission") :
    ∃ rec, (handle_workflow_run env db payload).1 = ⟨[rec], [], [], [], []⟩
      ∧ rec.status = "failed"
      ∧ rec.error_message = some "No artifact found"
      ∧ rec.pr_url = none
      ∧ rec.results_json = none
      ∧ (handle_workflow_run env db payload).2 =
          Except.ok (HandlerResult.error "no artifact") := by
  have hg := guard_phase_proceed env payload lb ha hc hf
  have hfind : (env.get_artifacts payload.installation_id
      payload.repository_full_name payload.workflow_run.id).find?
      (fun a => a.name == "agentbeats-submission") = none := by
    rw [List.find?_eq_none]
    intro a hmem
    simpa using hnone a hmem
  have hmain : handle_workflow_run env db payload =
      ({ Effects.empty with
          submissions := [record_submission payload.workflow_run.id
            lb.repo_full_name payload.repository_full_name "failed"
            (some "No artifact found") none none] },
        Except.ok (HandlerResult.error "no artifact")) := by
    simp only [handle_workflow_run, hg, hdup, handle_after_dup_check,
      download_submission_artifact, hfind, Effects.empty]
  rw [hmain]
  exact ⟨_, rfl, rfl, rfl, rfl, rfl, rfl⟩

/-- Like `envW`, but the artifact list holds only near-miss names: one
with a leading character and one with a trailing character. -/
def env4 : Env :=
  { envW with get_artifacts := fun _ _ _ =>
      [⟨1, "xagentbeats-submission"⟩, ⟨2, "agentbeats-submissionx"⟩] }

/-- C4 witness: artifacts named `xagentbeats-submission` and
`agentbeats-submissionx` do not match, so the run fails with a
`No artifact found` record and no download. -/
theorem no_artifact_failed_witness :
    ∃ rec, (handle_workflow_run env4 [] payloadW).1 = ⟨[rec], [], [], [], []⟩
      ∧ rec.status = "failed"
      ∧ rec.error_message = some "No artifact found"
      ∧ rec.pr_url = none
      ∧ rec.results_json = none
      ∧ (handle_workflow_run env4 [] payloadW).2 =
          Except.ok (HandlerResult.error "no artifact") :=
  no_artifact_failed env4 [] payloadW lbW rfl rfl (by decide) rfl (by decide)

/-- C7 counterexample: for the standard timestamp
`2024-01-02T03:04:05Z` the pipeline's storage path component is
`2024-01-02-03-0` — the separator-stripped form truncated to 15
characters — which drops the units digit of the minute, so it does not
retain the full date, hour and minute (`2024-01-02-03-04`) as the claim
states. -/
theorem publish_path_truncates_minute_counterexample :
    (create_submission_pr envW lbW manifestW resultsW "a=1" 7).1.commits.map
        (fun c => c.files.map Prod.fst) =
      [["submissions/alice/2024-01-02-03-0/results.json",
        "submissions/alice/2024-01-02-03-0/manifest.json",
        "submissions/alice/2024-01-02-03-0/scenario.toml"]]
    ∧ py_take (py_replace_char (py_replace_char "2024-01-02T03:04:05Z" ':' '-')
        'T' '-') 15 ≠ "2024-01-02-03-04" :=
  ⟨rfl, by decide⟩

/-- C7 (amended): the publish branch name is exactly
`agentbeats/submission-<run_id>`, deterministic in the run id, and the
storage path is `submissions/<owner>/<timestamp>` where `<owner>` is
the manifest's declared owner and `<timestamp>` is the manifest's
ISO-8601 timestamp with `:` and `T` replaced by `-` and truncated to
its first 15 characters — which keeps the full date and hour but only
the tens digit of the minute: `2024-01-02T03:04:05Z` normalizes to
`2024-01-02-03-0`, not to a full date/hour/minute prefix. -/
theorem publish_branch_and_path (env : Env) (lb : Leaderboard)
    (mf : List (String × Json)) (results : Json) (scenario : String)
    (run_id : Nat) (ownerJ : Json) (ts : String)
    (howner : (Json.obj mf).get "purple_agent_owner" = some ownerJ)
    (hts : (Json.obj mf).get "timestamp" = some (Json.str ts)) :
    (create_submission_pr env lb (Json.obj mf) results scenario run_id).1.branches =
      [⟨lb.installation_id, lb.repo_full_name,
        "agentbeats/submission-" ++ toString run_id, "main"⟩]
    ∧ (create_submission_pr env lb (Json.obj mf) results scenario run_id).1.commits.map
        (fun c => c.files.map Prod.fst) =
      [["submissions/" ++ env.pyStr ownerJ ++ "/" ++
          py_take (py_replace_char (py_replace_char ts ':' '-') 'T' '-') 15 ++
          "/results.json",
        "submissions/" ++ env.pyStr ownerJ ++ "/" ++
          py_take (py_replace_char (py_replace_char ts ':' '-') 'T' '-') 15 ++
          "/manifest.json",
        "submissions/" ++ env.pyStr ownerJ ++ "/" ++
          py_take (py_replace_char (py_replace_char ts ':' '-') 'T' '-') 15 ++
          "/scenario.toml"]]
    ∧ py_take (py_replace_char (py_replace_char "2024-01-02T03:04:05Z" ':' '-')
        'T' '-') 15 = "2024-01-02-03-0" := by
  refine ⟨?_, ?_, by decide⟩ <;>
  · unfold create_submission_pr
    rw [howner, hts]
    cases hbody : format_pr_body env (Json.obj mf) results with
    | error e => simp
    | ok body => simp

/-- C7 witness: in `envW` the branch is `agentbeats/submission-7` and
every committed file sits under `submissions/alice/2024-01-02-03-0`. -/
theorem publish_branch_and_path_witness :
    (create_submission_pr envW lbW (Json.obj mfW) resultsW "a=1" 7).1.branches =
      [⟨555, "octo/board", "agentbeats/submission-7", "main"⟩]
    ∧ (create_submission_pr envW lbW (Json.obj mfW) resultsW "a=1" 7).1.commits.map
        (fun c => c.files.map Prod.fst) =
      [["submissions/alice/2024-01-02-03-0/results.json",
        "submissions/alice/2024-01-02-03-0/manifest.json",
        "submissions/alice/2024-01-02-03-0/scenario.toml"]]
    ∧ py_take (py_replace_char (py_replace_char "2024-01-02T03:04:05Z" ':' '-')
        'T' '-') 15 = "2024-01-02-03-0" :=
  publish_branch_and_path envW lbW mfW resultsW "a=1" 7
    (Json.str "alice") "2024-01-02T03:04:05Z" rfl rfl

/-- The Submission row left by an earlier delivery of run 7. -/
def recPrior : SubmissionRecord :=
  record_submission 7 "octo/board" "alice/agent" "failed"
    (some "No artifact found") none none

/-- The final state of two concurrent deliveries of run 7 under the
schedule check¹ check² insert¹ insert²: both pass the idempotency read
before either inserts. -/
def raceFinal : ProcState × ProcState × List SubmissionRecord :=
  run_schedule envR payloadW [true, false, true, false]
    (ProcState.ready, ProcState.ready, [])

/-- C2: sequential redelivery after a prior record for run 7 is indeed
`ignored("duplicate")` with no side effects; but under the concurrent
schedule of `raceFinal` the plain check-then-insert lets both
deliveries pass the idempotency read, so the table ends with TWO
Submission rows for run 7 and the second delivery finishes with
`error("no artifact")` rather than `ignored("duplicate")` — the
concurrent half of the claim fails on this code. -/
theorem duplicate_redelivery_race :
    handle_workflow_run envR [recPrior] payloadW =
      (Effects.empty, Except.ok (HandlerResult.ignored "duplicate"))
    ∧ raceFinal.2.2.map (fun r => r.workflow_run_id) = [7, 7]
    ∧ raceFinal.2.2.map (fun r => r.status) = ["failed", "failed"]
    ∧ raceFinal.2.1.result = some (Except.ok (HandlerResult.error "no artifact")) :=
  ⟨rfl, rfl, rfl, rfl⟩
